import Mathlib

/-!
Shallow embedding of the producer-side client of the Memphis messaging
platform (`producer.go`).  Pure control flow is translated into Lean
functions; the externals that live outside this file's source (the broker
connection's `create`, `listenToSchemaUpdates`, `removeSchemaUpdatesListener`,
the transport `brokerPublish`, the schema validator `validateProtoMsg`, and
the random source used by `randomHex`) are passed in as explicit parameters
so that every path of the embedded code stays faithful to the source.
Channels are embedded as the list of events enqueued; maps as total
functions from keys to optional value lists.
-/

namespace Memphis

/-- A Go `any` message payload as far as `validateMsg` can distinguish it:
a raw byte slice, a string, an arbitrary tagged non-byte value, or `nil`. -/
inductive Msg where
  | bytes (data : List Nat)
  | str (s : String)
  | other (tag : String)
  | null
deriving DecidableEq

/-- One immutable schema revision (`SchemaVersion` in the source). -/
structure SchemaVersion where
  versionNumber : Int
  descriptor : String
  messageStructName : String
deriving DecidableEq

/-- The embedded schema snapshot carried by a creation response
(`SchemaUpdateInit` in the source). -/
structure SchemaUpdateInit where
  schemaName : String
  versions : List SchemaVersion
  activeVersionIdx : Int
  schemaType : String
deriving DecidableEq

/-- `SchemaUpdateType`: `Init = iota + 1`, `Drop = 2`. -/
inductive SchemaUpdateType where
  | SchemaUpdateTypeInit
  | SchemaUpdateTypeDrop
deriving DecidableEq

/-- A schema lifecycle event pushed onto a station's update channel. -/
structure SchemaUpdate where
  updateType : SchemaUpdateType
  init : SchemaUpdateInit
deriving DecidableEq

/-- Decoded producer-creation response body (`createProducerResp`):
`{schema_update, error}`. -/
structure createProducerResp where
  schemaUpdateInit : SchemaUpdateInit
  err : String
deriving DecidableEq

/-- The connection, reduced to the field `producer.go` reads (`ConnId`);
all network calls it brokers are passed as explicit parameters. -/
structure Conn where
  ConnId : String
deriving DecidableEq

/-- `Producer`: identity, target station, owning connection. -/
structure Producer where
  Name : String
  stationName : String
  conn : Conn
deriving DecidableEq

/-- Configuration options for producer creation (`ProducerOpts`). -/
structure ProducerOpts where
  GenUniqueSuffix : Bool
deriving DecidableEq

/-- A function on the options for producer creation (`ProducerOpt`). -/
def ProducerOpt := ProducerOpts → Except String ProducerOpts

/-- Default configuration options for producer creation. -/
def getDefaultProducerOpts : ProducerOpts :=
  { GenUniqueSuffix := false }

/-- `ProducerGenUniqueSuffix()` option: sets `GenUniqueSuffix` to true. -/
def ProducerGenUniqueSuffix : ProducerOpt :=
  fun opts => .ok { opts with GenUniqueSuffix := true }

/-- Sequential application of the variadic option functions in
`CreateProducer`'s loop: the first failing option aborts. -/
def applyProducerOpts : List ProducerOpt → ProducerOpts → Except String ProducerOpts
  | [], acc => .ok acc
  | o :: rest, acc =>
    match o acc with
    | .error e => .error e
    | .ok acc2 => applyProducerOpts rest acc2

/-- Lower-case hexadecimal digit for a value below 16. -/
def hexDigit (n : Nat) : Char :=
  if n < 10 then Char.ofNat (48 + n) else Char.ofNat (87 + n)

/-- Hex encoding of one byte: two hex digits, high nibble first. -/
def hexByte (b : Nat) : List Char :=
  [hexDigit (b % 256 / 16), hexDigit (b % 16)]

/-- Modelled from the spec: `randomHex(n)` lives outside this file's source
(in the connection code); the spec describes it as producing a short random
hexadecimal suffix, with the scenario fixing `randomHex 4` to 8 hex
characters.  We model it as the hex encoding of `n` bytes drawn from an
explicit random source. -/
def randomHex (src : Nat → Nat) (n : Nat) : String :=
  String.mk (((List.range n).map (fun i => hexByte (src i))).flatten)

/-- `extendNameWithRandSuffix`: appends an underscore and `randomHex 4`
to the name; a failing random source propagates its error. -/
def extendNameWithRandSuffix (randSrc : Except String (Nat → Nat))
    (name : String) : Except String String :=
  match randSrc with
  | .error e => .error e
  | .ok src => .ok (name ++ "_" ++ randomHex src 4)

/-- The connection-side collaborators of `CreateProducer`, passed as
explicit results: the relay registration, the synchronous creation
round-trip (`c.create`), the relay teardown, and the random source. -/
structure CreateEnv where
  listenToSchemaUpdates : Except String Unit
  create : Except String Unit
  removeSchemaUpdatesListener : Except String Unit
  randSrc : Except String (Nat → Nat)

/-- Outcome of `CreateProducer`: the returned value and whether the
station's schema-update relay is still registered when it returns. -/
structure CreateOutcome where
  result : Except String Producer
  relayActive : Bool

/-- `Conn.CreateProducer`: applies options, optionally extends the name
with a random suffix, registers the schema-update relay, then performs the
synchronous creation request; on creation failure the relay is removed,
and a failing removal replaces the creation error as the returned error. -/
def Conn.CreateProducer (c : Conn) (env : CreateEnv)
    (stationName name : String) (opts : List ProducerOpt) : CreateOutcome :=
  match applyProducerOpts opts getDefaultProducerOpts with
  | .error e => ⟨.error e, false⟩
  | .ok defaultOpts =>
    match (if defaultOpts.GenUniqueSuffix
           then extendNameWithRandSuffix env.randSrc name
           else .ok name) with
    | .error e => ⟨.error e, false⟩
    | .ok name2 =>
      let p : Producer := ⟨name2, stationName, c⟩
      match env.listenToSchemaUpdates with
      | .error e => ⟨.error e, false⟩
      | .ok _ =>
        match env.create with
        | .error e =>
          match env.removeSchemaUpdatesListener with
          | .error e2 => ⟨.error e2, true⟩
          | .ok _ => ⟨.error e, false⟩
        | .ok _ => ⟨.ok p, true⟩

/-- `Producer.getCreationSubject`: the fixed producer-creation subject. -/
def Producer.getCreationSubject (_ : Producer) : String :=
  "$memphis_producer_creations"

/-- `Producer.getDestructionSubject`: the fixed producer-destruction
subject. -/
def Producer.getDestructionSubject (_ : Producer) : String :=
  "$memphis_producer_destructions"

/-- The per-station schema-updates subject, from the source constant
`schemaUpdatesSubjectTemplate = "$memphis_schema_updates_%s"` instantiated
with the station name. -/
def schemaUpdatesSubject (stationName : String) : String :=
  "$memphis_schema_updates_" ++ stationName

/-- `Producer.handleCreationResp` on the decoded creation response: a
decode failure or a non-empty error string fails and enqueues nothing; an
empty error string enqueues one `Init` event carrying the embedded schema
snapshot onto the station's channel (embedded as the returned list). -/
def handleCreationResp (decoded : Except String createProducerResp) :
    Except String Unit × List SchemaUpdate :=
  match decoded with
  | .error e => (.error e, [])
  | .ok cr =>
    if cr.err ≠ "" then (.error cr.err, [])
    else (.ok (), [⟨SchemaUpdateType.SchemaUpdateTypeInit, cr.schemaUpdateInit⟩])

/-- Outcome of `Producer.Destroy`: either panicked (the Go `panic(err)`)
or returned a value. -/
inductive DestroyOutcome where
  | panicked (e : String)
  | returned (r : Except String Unit)

/-- `Producer.Destroy`: first removes the schema-updates listener — a
failure there panics — then performs the network destroy.  The boolean
records whether the network destroy request was attempted. -/
def Producer.Destroy (removeListener : Except String Unit)
    (destroyResult : Except String Unit) : DestroyOutcome × Bool :=
  match removeListener with
  | .error e => (.panicked e, false)
  | .ok _ => (.returned destroyResult, true)

/-- A Go `map[string][]string`, embedded as a total function from keys to
an optional value list (`none` = key absent). -/
def HeadersMap := String → Option (List String)

/-- Insertion into a headers map: the Go assignment `m[k] = v`. -/
def hmInsert (m : HeadersMap) (k : String) (v : List String) : HeadersMap :=
  fun k2 => if k2 = k then some v else m k2

/-- The empty headers map made by `make(map[string][]string)`. -/
def hmEmpty : HeadersMap := fun _ => none

/-- `Headers`: the message-header wrapper around the map. -/
structure Headers where
  MsgHeaders : HeadersMap

/-- `Headers.validateHeaderKey`: rejects keys starting with the reserved
prefix `$memphis`. -/
def Headers.validateHeaderKey (_ : Headers) (key : String) :
    Except String Unit :=
  if key.startsWith "$memphis"
  then .error "Keys in headers should not start with $memphis"
  else .ok ()

/-- `Headers.Add`: validates the key, then stores the single-element value
list under it (state-passing embedding of the in-place map write). -/
def Headers.Add (hdr : Headers) (key value : String) :
    Except String Headers :=
  match hdr.validateHeaderKey key with
  | .error e => .error e
  | .ok _ => .ok ⟨hmInsert hdr.MsgHeaders key [value]⟩

/-- The `schemaDetails` of a station, reduced to the field `validateMsg`
inspects (`schemaType`); the schema-side validator is passed separately. -/
structure schemaDetails where
  schemaType : String
deriving DecidableEq

/-- Configuration options for produce operations (`ProduceOpts`). -/
structure ProduceOpts where
  Message : Msg
  AckWaitSec : Int
  MsgHeaders : Headers
  AsyncProduce : Bool

/-- Default configuration options for produce operations: 15-second ack
wait, a freshly made empty header map, synchronous completion.  (Go's `nil`
message placeholder before `Produce` assigns the payload is `Msg.null`.) -/
def getDefaultProduceOpts : ProduceOpts :=
  { Message := Msg.null, AckWaitSec := 15,
    MsgHeaders := ⟨hmEmpty⟩, AsyncProduce := false }

/-- Go's `time.Second` in nanoseconds (`time.Duration` counts ns). -/
def timeSecond : Int := 1000000000

/-- Modelled from the spec: `getInternalName` is defined outside this
file's source; the spec fixes the data-plane publish subject for station
`S` to `S.final`, so the internal name is the station name itself. -/
def getInternalName (stationName : String) : String := stationName

/-- The outbound transport message built by `produce` (`nats.Msg`). -/
structure NatsMsg where
  header : HeadersMap
  subject : String
  data : List Nat

/-- Resolution of a publish-acknowledgement future: which of the Go
`select` arms (`paf.Ok()` / `paf.Err()`) fires. -/
inductive AckResult where
  | ackOk
  | ackErr (e : String)
deriving DecidableEq

/-- The future returned by a successful publish submission. -/
structure PubFuture where
  resolution : AckResult
deriving DecidableEq

/-- The external collaborators of the produce pipeline: the station's
schema details (from `getSchemaDetails`), the schema-side validator
(`validateProtoMsg`), and the transport publish (`brokerPublish`), which
receives the message and the stall-wait duration in nanoseconds. -/
structure ProduceEnv where
  sd : Except String schemaDetails
  protoValidate : schemaDetails → Msg → Except String (List Nat)
  publish : NatsMsg → Int → Except String PubFuture

/-- `Producer.validateMsg`: fetch schema details; with no active schema
(empty schema type) accept exactly a raw byte payload, rejecting all other
types; with an active schema defer to the schema validator. -/
def validateMsg (sd : Except String schemaDetails)
    (pv : schemaDetails → Msg → Except String (List Nat)) (msg : Msg) :
    Except String (List Nat) :=
  match sd with
  | .error e => .error e
  | .ok sd =>
    if sd.schemaType = "" then
      match msg with
      | .bytes d => .ok d
      | _ => .error "Unsupported message type"
    else pv sd msg

/-- One publish submission handed to the transport: the message and the
stall-wait bound passed alongside it. -/
structure Submission where
  msg : NatsMsg
  stallWait : Int

/-- Result of one `produce` call: the returned value, the final state of
the caller's header map (which `produce` mutates in place), and the
publish submission if one was made. -/
structure ProduceResult where
  result : Except String Unit
  finalHeaders : HeadersMap
  submitted : Option Submission

/-- `ProduceOpts.produce`: injects the two reserved provenance headers
into the caller's map, validates the message, publishes with a stall-wait
of `AckWaitSec` seconds, then returns immediately in async mode or awaits
the acknowledgement future in sync mode. -/
def ProduceOpts.produce (opts : ProduceOpts) (p : Producer)
    (env : ProduceEnv) : ProduceResult :=
  let hdrs1 := hmInsert opts.MsgHeaders.MsgHeaders "$memphis_connectionId" [p.conn.ConnId]
  let hdrs2 := hmInsert hdrs1 "$memphis_producedBy" [p.Name]
  match validateMsg env.sd env.protoValidate opts.Message with
  | .error e => ⟨.error e, hdrs2, none⟩
  | .ok data =>
    let natsMessage : NatsMsg :=
      ⟨hdrs2, getInternalName p.stationName ++ ".final", data⟩
    let stallWaitDuration := timeSecond * opts.AckWaitSec
    match env.publish natsMessage stallWaitDuration with
    | .error e => ⟨.error e, hdrs2, some ⟨natsMessage, stallWaitDuration⟩⟩
    | .ok paf =>
      if opts.AsyncProduce then
        ⟨.ok (), hdrs2, some ⟨natsMessage, stallWaitDuration⟩⟩
      else
        match paf.resolution with
        | .ackOk => ⟨.ok (), hdrs2, some ⟨natsMessage, stallWaitDuration⟩⟩
        | .ackErr e => ⟨.error e, hdrs2, some ⟨natsMessage, stallWaitDuration⟩⟩

/-- A character is a lower-case hexadecimal digit (a decimal digit or a
letter between `a` and `f`). -/
def isHexChar (ch : Char) : Bool :=
  (48 ≤ ch.toNat && ch.toNat ≤ 57) || (97 ≤ ch.toNat && ch.toNat ≤ 102)

/-- Sample connection for concrete evaluations. -/
def sampleConn : Conn := ⟨"connid-1"⟩

/-- Sample producer for concrete evaluations. -/
def sampleProducer : Producer := ⟨"prod-1", "station-1", sampleConn⟩

/-- Sample schema snapshot for concrete evaluations. -/
def sampleInit : SchemaUpdateInit := ⟨"sn", [], 0, "protobuf"⟩

/-- Sample produce environment: schema-less station, transport accepting
every publish and acknowledging it. -/
def schemalessEnvOk : ProduceEnv :=
  ⟨.ok ⟨""⟩, fun _ _ => .ok [], fun _ _ => .ok ⟨.ackOk⟩⟩

/-- Sample produce options carrying a raw byte payload. -/
def byteOpts : ProduceOpts :=
  { getDefaultProduceOpts with Message := Msg.bytes [104, 105] }

/-- Sample produce options carrying one caller-supplied header. -/
def hdrSampleOpts : ProduceOpts :=
  { byteOpts with MsgHeaders := ⟨hmInsert hmEmpty "x" ["1"]⟩ }

/-- The submission made by the sample byte-payload produce call. -/
def sampleSubmission : Submission :=
  ((byteOpts.produce sampleProducer schemalessEnvOk).submitted).getD ⟨⟨hmEmpty, "", []⟩, 0⟩

/-! ## Helper lemmas -/

theorem hexDigit_isHex : ∀ m : Fin 16, isHexChar (hexDigit m.val) = true := by
  decide

theorem hexByte_isHex (b : Nat) : (hexByte b).all isHexChar = true := by
  simp only [hexByte, List.all_cons, List.all_nil, Bool.and_true, Bool.and_eq_true]
  refine ⟨hexDigit_isHex ⟨b % 256 / 16, ?_⟩, hexDigit_isHex ⟨b % 16, ?_⟩⟩
  · exact Nat.div_lt_of_lt_mul (Nat.mod_lt b (by norm_num))
  · exact Nat.mod_lt b (by norm_num)

theorem randomHex_length (src : Nat → Nat) : (randomHex src 4).length = 8 := by
  simp [randomHex, String.length, List.range_succ, hexByte]

theorem randomHex_chars (src : Nat → Nat) :
    (randomHex src 4).data.all isHexChar = true := by
  have h : ∀ b, (hexByte b).all isHexChar = true := hexByte_isHex
  simp only [randomHex, List.range_succ, List.range_zero, List.nil_append,
    List.cons_append, List.map_cons, List.map_nil, List.flatten,
    List.append_nil, List.all_append]
  simp [h]

theorem produce_finalHeaders (opts : ProduceOpts) (p : Producer)
    (env : ProduceEnv) :
    (opts.produce p env).finalHeaders =
      hmInsert (hmInsert opts.MsgHeaders.MsgHeaders
          "$memphis_connectionId" [p.conn.ConnId])
        "$memphis_producedBy" [p.Name] := by
  unfold ProduceOpts.produce
  simp only []
  repeat' split
  all_goals rfl

/-! ## Claim theorems -/

/-- C1: On a station with no active schema (empty schema type), validation
accepts a raw byte payload and returns exactly those bytes; any other
payload type makes `produce` fail with the UnsupportedMessageType error and
nothing is submitted to the transport. -/
theorem produce_no_schema_validation
    (sd : schemaDetails) (hsd : sd.schemaType = "")
    (pv : schemaDetails → Msg → Except String (List Nat))
    (pub : NatsMsg → Int → Except String PubFuture)
    (d : List Nat) (msg : Msg) (hmsg : ∀ b, msg ≠ Msg.bytes b)
    (opts : ProduceOpts) (p : Producer) :
    validateMsg (.ok sd) pv (Msg.bytes d) = .ok d ∧
    validateMsg (.ok sd) pv msg = .error "Unsupported message type" ∧
    ({ opts with Message := msg }.produce p ⟨.ok sd, pv, pub⟩).result
        = .error "Unsupported message type" ∧
    ({ opts with Message := msg }.produce p ⟨.ok sd, pv, pub⟩).submitted
        = none := by
  have hv2 : validateMsg (.ok sd) pv msg = .error "Unsupported message type" := by
    cases msg with
    | bytes b => exact absurd rfl (hmsg b)
    | str s => simp [validateMsg, hsd]
    | other t => simp [validateMsg, hsd]
    | null => simp [validateMsg, hsd]
  refine ⟨by simp [validateMsg, hsd], hv2, ?_, ?_⟩ <;>
    simp [ProduceOpts.produce, hv2]

theorem produce_no_schema_validation_witness :
    validateMsg (.ok ⟨""⟩) (fun _ _ => .ok []) (Msg.bytes [104, 105]) = .ok [104, 105] ∧
    ({ getDefaultProduceOpts with Message := Msg.str "hi" }.produce
        sampleProducer ⟨.ok ⟨""⟩, fun _ _ => .ok [], fun _ _ => .ok ⟨.ackOk⟩⟩).submitted = none := by
  have h := produce_no_schema_validation ⟨""⟩ rfl (fun _ _ => .ok [])
    (fun _ _ => .ok ⟨.ackOk⟩) [104, 105] (Msg.str "hi")
    (fun b hb => Msg.noConfusion hb) getDefaultProduceOpts sampleProducer
  exact ⟨h.1, h.2.2.2⟩

/-- C3: `Destroy` removes the relay listener first; a failure there panics
(never returned as an ordinary error) and the network destroy request is
never attempted; on successful removal the destroy request is attempted
and its result returned. -/
theorem destroy_relay_failure_fatal (e : String) (dr : Except String Unit) :
    Producer.Destroy (.error e) dr = (DestroyOutcome.panicked e, false) ∧
    Producer.Destroy (.ok ()) dr = (DestroyOutcome.returned dr, true) :=
  ⟨rfl, rfl⟩

/-- C4: `handleCreationResp` on a decoded response with an empty error
string enqueues exactly one Init schema update carrying the embedded
snapshot and succeeds; with a non-empty error string it returns that
string as an error and enqueues nothing. -/
theorem creation_resp_enqueues_init (cr : createProducerResp) :
    (cr.err = "" →
      handleCreationResp (.ok cr) =
        (.ok (), [⟨SchemaUpdateType.SchemaUpdateTypeInit, cr.schemaUpdateInit⟩])) ∧
    (cr.err ≠ "" →
      handleCreationResp (.ok cr) = (.error cr.err, [])) := by
  constructor <;> intro h <;> simp [handleCreationResp, h]

theorem creation_resp_enqueues_init_witness :
    handleCreationResp (.ok ⟨sampleInit, ""⟩) =
      (.ok (), [⟨SchemaUpdateType.SchemaUpdateTypeInit, sampleInit⟩]) :=
  (creation_resp_enqueues_init ⟨sampleInit, ""⟩).1 rfl

/-- C6: `Headers.Add` fails with the reserved-header-key error exactly when
the key starts with the reserved prefix; for any other key it succeeds,
stores the single-element list under that key, and leaves every other key
unchanged. -/
theorem headers_add_spec (hdr : Headers) (key value : String) :
    (key.startsWith "$memphis" = true →
      hdr.Add key value =
        .error "Keys in headers should not start with $memphis") ∧
    (key.startsWith "$memphis" = false →
      hdr.Add key value = .ok ⟨hmInsert hdr.MsgHeaders key [value]⟩ ∧
      hmInsert hdr.MsgHeaders key [value] key = some [value] ∧
      ∀ k2, k2 ≠ key → hmInsert hdr.MsgHeaders key [value] k2 = hdr.MsgHeaders k2) := by
  constructor <;> intro h
  · unfold Headers.Add Headers.validateHeaderKey
    simp only [h, if_true]
  · refine ⟨?_, ?_, ?_⟩
    · unfold Headers.Add Headers.validateHeaderKey
      simp only [h, Bool.false_eq_true, if_false]
    · simp [hmInsert]
    · intro k2 hk2
      simp [hmInsert, hk2]

theorem headers_add_spec_witness :
    Headers.Add ⟨hmEmpty⟩ "foo" "bar" = .ok ⟨hmInsert hmEmpty "foo" ["bar"]⟩ ∧
    hmInsert hmEmpty "foo" ["bar"] "other" = hmEmpty "other" := by
  have h := (headers_add_spec ⟨hmEmpty⟩ "foo" "bar").2 (by decide)
  exact ⟨h.1, h.2.2 "other" (by decide)⟩

/-- C7 counterexample: the fixed control subjects in the code are not the
bare names the claim states — each carries the `$memphis` prefix and the
schema-updates subject is underscore-joined. -/
theorem control_subjects_counterexample :
    Producer.getCreationSubject sampleProducer ≠ "producer-creations" ∧
    Producer.getDestructionSubject sampleProducer ≠ "producer-destructions" ∧
    schemaUpdatesSubject "S" ≠ "schema-updates.S" := by
  refine ⟨?_, ?_, ?_⟩ <;> decide

/-- C7 amended: the producer-creation subject is
`$memphis_producer_creations`, the destruction subject is
`$memphis_producer_destructions`, and schema updates for station `S` use
`$memphis_schema_updates_S`. -/
theorem control_subjects (p : Producer) (s : String) :
    p.getCreationSubject = "$memphis_producer_creations" ∧
    p.getDestructionSubject = "$memphis_producer_destructions" ∧
    schemaUpdatesSubject s = "$memphis_schema_updates_" ++ s :=
  ⟨rfl, rfl, rfl⟩

/-- C2: When the relay registration succeeded and the synchronous creation
request fails, `CreateProducer` tears the relay down and returns the
creation error with no producer; if the rollback teardown itself fails,
the teardown's error is the one returned instead. -/
theorem create_rollback_on_failure (c : Conn) (env : CreateEnv)
    (stationName name e : String)
    (hlisten : env.listenToSchemaUpdates = .ok ())
    (hcreate : env.create = .error e) :
    (env.removeSchemaUpdatesListener = .ok () →
      c.CreateProducer env stationName name [] = ⟨.error e, false⟩) ∧
    (∀ e2, env.removeSchemaUpdatesListener = .error e2 →
      c.CreateProducer env stationName name [] = ⟨.error e2, true⟩) := by
  constructor
  · intro hrm
    simp [Conn.CreateProducer, applyProducerOpts, getDefaultProducerOpts,
      hlisten, hcreate, hrm]
  · intro e2 hrm
    simp [Conn.CreateProducer, applyProducerOpts, getDefaultProducerOpts,
      hlisten, hcreate, hrm]

theorem create_rollback_on_failure_witness :
    Conn.CreateProducer sampleConn ⟨.ok (), .error "denied", .ok (), .error "nr"⟩
      "st" "nm" [] = ⟨.error "denied", false⟩ :=
  (create_rollback_on_failure sampleConn
    ⟨.ok (), .error "denied", .ok (), .error "nr"⟩ "st" "nm" "denied" rfl rfl).1 rfl

/-- C5: When validation passes, a produce whose publish submission succeeds
returns success immediately in async mode regardless of the future's
resolution, while sync mode returns the ack outcome (no error on ack, the
transport's error on failure); a submission-time publish error is returned
synchronously in either mode. -/
theorem produce_async_sync_ack (opts : ProduceOpts) (p : Producer)
    (sd : Except String schemaDetails)
    (pv : schemaDetails → Msg → Except String (List Nat))
    (paf : PubFuture) (e : String) (d : List Nat)
    (hval : validateMsg sd pv opts.Message = .ok d) :
    ({ opts with AsyncProduce := true }.produce p
        ⟨sd, pv, fun _ _ => .ok paf⟩).result = .ok () ∧
    ({ opts with AsyncProduce := false }.produce p
        ⟨sd, pv, fun _ _ => .ok paf⟩).result =
      (match paf.resolution with
       | .ackOk => .ok ()
       | .ackErr er => .error er) ∧
    (opts.produce p ⟨sd, pv, fun _ _ => .error e⟩).result = .error e := by
  refine ⟨?_, ?_, ?_⟩
  · simp [ProduceOpts.produce, hval]
  · cases hr : paf.resolution <;> simp [ProduceOpts.produce, hval, hr]
  · simp [ProduceOpts.produce, hval]

theorem produce_async_sync_ack_witness :
    ({ byteOpts with AsyncProduce := true }.produce sampleProducer
        ⟨.ok ⟨""⟩, fun _ _ => .ok [], fun _ _ => .ok ⟨.ackErr "boom"⟩⟩).result = .ok () :=
  (produce_async_sync_ack byteOpts sampleProducer (.ok ⟨""⟩)
    (fun _ _ => .ok []) ⟨.ackErr "boom"⟩ "pub-fail" [104, 105] rfl).1

/-- C8: With the GenUniqueSuffix option and a succeeding random source, a
successfully created producer's name is the requested name, an underscore,
and exactly 8 lower-case hexadecimal characters; with no options the
requested name is used unchanged. -/
theorem create_unique_suffix_name (c : Conn) (env : CreateEnv)
    (stationName name : String) (src : Nat → Nat) (p q : Producer)
    (hrand : env.randSrc = .ok src)
    (hres : (c.CreateProducer env stationName name
        [ProducerGenUniqueSuffix]).result = .ok p)
    (hres2 : (c.CreateProducer env stationName name []).result = .ok q) :
    (∃ s, p.Name = name ++ "_" ++ s ∧ s.length = 8 ∧ s.data.all isHexChar = true) ∧
    q.Name = name := by
  have happ : applyProducerOpts [ProducerGenUniqueSuffix] getDefaultProducerOpts
      = .ok ⟨true⟩ := rfl
  have hext : extendNameWithRandSuffix env.randSrc name
      = .ok (name ++ "_" ++ randomHex src 4) := by
    rw [hrand]; rfl
  constructor
  · cases hl : env.listenToSchemaUpdates with
    | error el => simp [Conn.CreateProducer, happ, hext, hl] at hres
    | ok u =>
      cases hc : env.create with
      | error ec =>
        cases hr : env.removeSchemaUpdatesListener with
        | error er => simp [Conn.CreateProducer, happ, hext, hl, hc, hr] at hres
        | ok u2 => simp [Conn.CreateProducer, happ, hext, hl, hc, hr] at hres
      | ok u2 =>
        have hp : Producer.mk (name ++ "_" ++ randomHex src 4) stationName c = p := by
          have h3 := hres
          simp [Conn.CreateProducer, happ, hext, hl, hc] at h3
          exact h3
        subst hp
        exact ⟨randomHex src 4, rfl, randomHex_length src, randomHex_chars src⟩
  · cases hl : env.listenToSchemaUpdates with
    | error el => simp [Conn.CreateProducer, applyProducerOpts,
        getDefaultProducerOpts, hl] at hres2
    | ok u =>
      cases hc : env.create with
      | error ec =>
        cases hr : env.removeSchemaUpdatesListener with
        | error er => simp [Conn.CreateProducer, applyProducerOpts,
            getDefaultProducerOpts, hl, hc, hr] at hres2
        | ok u2 => simp [Conn.CreateProducer, applyProducerOpts,
            getDefaultProducerOpts, hl, hc, hr] at hres2
      | ok u2 =>
        have hq : Producer.mk name stationName c = q := by
          have h3 := hres2
          simp [Conn.CreateProducer, applyProducerOpts,
            getDefaultProducerOpts, hl, hc] at h3
          exact h3
        subst hq
        rfl

theorem create_unique_suffix_name_witness :
    ∃ s, Producer.Name ⟨"p2_00000000", "st", sampleConn⟩ = "p2" ++ "_" ++ s ∧
      s.length = 8 ∧ s.data.all isHexChar = true :=
  (create_unique_suffix_name sampleConn
    ⟨.ok (), .ok (), .ok (), .ok (fun _ => 0)⟩ "st" "p2" (fun _ => 0)
    ⟨"p2_00000000", "st", sampleConn⟩ ⟨"p2", "st", sampleConn⟩
    rfl rfl rfl).1

/-- C9: The default produce options carry a 15-second ack wait, an empty
header mapping, and synchronous completion; every publish submission made
by `produce` carries a stall-wait bound of the configured ack-wait seconds
converted to a duration. -/
theorem default_produce_opts_spec (opts : ProduceOpts) (p : Producer)
    (env : ProduceEnv) (sub : Submission)
    (h : (opts.produce p env).submitted = some sub) :
    getDefaultProduceOpts.AckWaitSec = 15 ∧
    getDefaultProduceOpts.AsyncProduce = false ∧
    (∀ k, getDefaultProduceOpts.MsgHeaders.MsgHeaders k = none) ∧
    sub.stallWait = timeSecond * opts.AckWaitSec := by
  refine ⟨rfl, rfl, fun k => rfl, ?_⟩
  unfold ProduceOpts.produce at h
  simp only [] at h
  split at h
  · simp at h
  · split at h
    · simp at h
      subst h
      rfl
    · split at h
      · simp at h
        subst h
        rfl
      · split at h <;> simp at h <;> subst h <;> rfl

theorem default_produce_opts_spec_witness :
    sampleSubmission.stallWait = timeSecond * byteOpts.AckWaitSec :=
  (default_produce_opts_spec byteOpts sampleProducer schemalessEnvOk
    sampleSubmission rfl).2.2.2

/-- C10: `produce` writes the two reserved provenance headers into the
caller's header map before validation, so the final header state maps the
connection-id key to the connection id and the produced-by key to the
producer name — also when produce fails — while every other key keeps its
caller-supplied value. -/
theorem produce_header_injection (opts : ProduceOpts) (p : Producer)
    (env : ProduceEnv) (k : String)
    (h1 : k ≠ "$memphis_connectionId") (h2 : k ≠ "$memphis_producedBy") :
    (opts.produce p env).finalHeaders "$memphis_connectionId" = some [p.conn.ConnId] ∧
    (opts.produce p env).finalHeaders "$memphis_producedBy" = some [p.Name] ∧
    (opts.produce p env).finalHeaders k = opts.MsgHeaders.MsgHeaders k := by
  rw [produce_finalHeaders]
  refine ⟨?_, ?_, ?_⟩
  · simp [hmInsert]
  · simp [hmInsert]
  · simp [hmInsert, h1, h2]

theorem produce_header_injection_witness :
    (hdrSampleOpts.produce sampleProducer schemalessEnvOk).finalHeaders "x"
      = hdrSampleOpts.MsgHeaders.MsgHeaders "x" :=
  (produce_header_injection hdrSampleOpts sampleProducer schemalessEnvOk "x"
    (by decide) (by decide)).2.2

end Memphis
